import Mathlib

/-!
Verification development for the scrape_special_request service
(src/main.py): a FastAPI endpoint that drives a Playwright page,
intercepts network responses, and captures the body of the first
matching POST response per the capture synchronization protocol.

The embedding models:
  * the match predicate and the response listener
    (handle_response_inner, src/main.py lines 71-113),
  * the per-operation result holder and one-shot event
    (src/main.py lines 66-69),
  * the orchestrator main_scraper with navigation, the bounded
    capture wait, and the cleanup in the finally block
    (src/main.py lines 115-180),
  * the HTTP endpoint trigger_scrape_endpoint
    (src/main.py lines 183-216),
  * a two-operation interleaving semantics for the isolation claim.
-/

namespace Scrape

/-- A JSON-like value, the result of a successful `response.json()`
parse and the shape of the payload dictionaries the listener stores. -/
inductive JsonValue where
  | null : JsonValue
  | bool (b : Bool) : JsonValue
  | num (n : Int) : JsonValue
  | str (s : String) : JsonValue
  | arr (elems : List JsonValue) : JsonValue
  | obj (fields : List (String × JsonValue)) : JsonValue
deriving Repr

/-- Whether the char list `needle` is a pointwise leading segment of
`hay` (helper for the substring test of the match predicate). -/
def charsLead : List Char → List Char → Bool
  | [], _ => true
  | _ :: _, [] => false
  | a :: as, b :: bs => a == b && charsLead as bs

/-- Whether `needle` occurs contiguously inside `hay`, as char lists. -/
def charsSub : List Char → List Char → Bool
  | [], needle => needle.isEmpty
  | c :: rest, needle => charsLead needle (c :: rest) || charsSub rest needle

/-- Python `needle in hay` on strings: literal, case-sensitive
substring containment (src/main.py line 75: `target_url in response.url`). -/
def strContains (hay needle : String) : Bool :=
  charsSub hay.data needle.data

/-- One network response event as the listener observes it.  The
outcomes of the fallible engine calls made by the listener are recorded
as fields: `jsonBody` is the result of `response.json()` (`some v` when
parsing succeeds), `textBody` the result of `response.text()`,
`headersOk` whether `request.all_headers()` (and its serialization)
succeeds.  The message fields carry the exception texts `str(e)`,
`str(e_text)` raised when the corresponding call fails. -/
structure Response where
  url : String
  method : String
  status : Nat
  jsonBody : Option JsonValue
  jsonErrMsg : String
  textBody : Option String
  textErrMsg : String
  headersOk : Bool
  headerErrMsg : String
deriving Repr

/-- The match predicate of src/main.py lines 74-76:
`target_url in response.url and response.request.method == "POST"`. -/
def isTargetPost (target_url : String) (r : Response) : Bool :=
  strContains r.url target_url && r.method == "POST"

/-- The value stored in `_local_captured_post_data_holder["data"]`:
either the parsed JSON body, or one of the two fallback dictionaries
built in the except branches of the listener. -/
inductive Payload where
  | json (v : JsonValue) : Payload
  | errWithRaw (msg : String) (rawText : String) : Payload
  | errOnly (msg : String) : Payload
deriving Repr

/-- The Python object the stored payload denotes: `errWithRaw` is the
dict built at src/main.py lines 92-95, `errOnly` the dict of line 106. -/
def payloadToJson : Payload → JsonValue
  | .json v => v
  | .errWithRaw msg rawText =>
      .obj [("error", .str msg), ("raw_text", .str rawText)]
  | .errOnly msg => .obj [("error", .str msg)]

/-- The keys of a JSON object (empty for non-objects). -/
def objKeys : JsonValue → List String
  | .obj fields => fields.map Prod.fst
  | _ => []

/-- The per-operation mutable state of src/main.py lines 66-69: the
holder dict `_local_captured_post_data_holder` and the private
`_local_capture_event`. -/
structure OpState where
  data : Option Payload
  eventSet : Bool
deriving Repr

/-- The initial per-operation state: holder data `None`, event unset. -/
def OpState.init : OpState := { data := none, eventSet := false }

/-- The listener `handle_response_inner` (src/main.py lines 71-113) as
a state transformer on the per-operation state.  On a matching
response: a successful `response.json()` stores the parsed body and
sets the event; on parse failure a successful `response.text()` stores
the error/raw-text dict, after which the debug block calls
`request.all_headers()` inside the same try, so a headers failure falls
into the `except Exception as e_text` branch at line 104, which
overwrites the holder with the message-only dict of line 106; a text
read failure stores the message-only dict directly.  The event is set
only in the successful-parse branch (line 84); the fallback branches
leave it as is (the finally at lines 107-113 only passes). -/
def handle_response_inner (target_url : String) (st : OpState)
    (r : Response) : OpState :=
  if isTargetPost target_url r then
    match r.jsonBody with
    | some v => { data := some (.json v), eventSet := true }
    | none =>
      match r.textBody with
      | some t =>
        if r.headersOk then
          { st with data := some (.errWithRaw r.jsonErrMsg t) }
        else
          { st with data := some (.errOnly r.headerErrMsg) }
      | none => { st with data := some (.errOnly r.textErrMsg) }
  else st

/-- The per-operation state after the listener has processed a list of
response events, in completion order, starting from the initial state. -/
def processResponses (target_url : String) (rs : List Response) : OpState :=
  rs.foldl (handle_response_inner target_url) OpState.init

/-- The payload a single matching response leaves in the holder,
following the three-tier structure of the listener. -/
def extractPayload (r : Response) : Payload :=
  match r.jsonBody with
  | some v => .json v
  | none =>
    match r.textBody with
    | some t =>
      if r.headersOk then .errWithRaw r.jsonErrMsg t
      else .errOnly r.headerErrMsg
    | none => .errOnly r.textErrMsg

/-- The outcome of `page.goto(page_url, wait_until="networkidle",
timeout=60000)` at src/main.py lines 128-145: success, a
PlaywrightTimeoutError (navigation or networkidle timeout), or a hard
navigation error (any other exception: DNS failure, engine crash,
certificate error). -/
inductive NavResult where
  | ok : NavResult
  | timeout : NavResult
  | hardError : NavResult
deriving Repr, DecidableEq

/-- The environment of one run of `main_scraper`: whether the global
browser handle is initialized, whether the fallible engine calls
(`new_context`, `new_page`, navigation, the two closes) succeed, which
responses the page delivers to the listener before the result slot is
read at line 161, and whether some other unexpected exception strikes
the body (caught at line 163). -/
structure RunConfig where
  browserReady : Bool
  newContextOk : Bool
  newPageOk : Bool
  nav : NavResult
  responses : List Response
  unexpectedError : Bool
  pageCloseFails : Bool
  contextCloseFails : Bool

/-- How one run of `main_scraper` terminates: `notReady` is the
HTTPException 503 raised at line 64 before the try block, `data d` is
a normal return with value `d`. -/
inductive RunOutcome where
  | notReady : RunOutcome
  | data (d : Option Payload) : RunOutcome
deriving Repr

/-- The observable result of one run of `main_scraper`: its outcome,
whether the capture wait at line 150 was reached, and which close
calls the finally block at lines 168-179 attempted. -/
structure RunResult where
  outcome : RunOutcome
  waited : Bool
  pageCloseAttempted : Bool
  contextCloseAttempted : Bool
deriving Repr

/-- The cleanup of the finally block (src/main.py lines 168-179):
`page.close()` is attempted when the page exists and is not already
closed, inside its own try whose except only prints, so a page close
failure does not stop control from reaching the context close;
`context.close()` is attempted whenever the context exists, also
inside its own try.  Returns which closes were attempted. -/
def closeSession (pageAcquired pageIsClosed contextAcquired
    pageCloseFails contextCloseFails : Bool) : Bool × Bool :=
  let pageAttempt := pageAcquired && !pageIsClosed
  let contextAttempt := contextAcquired
  (pageAttempt, contextAttempt)

/-- `main_scraper` (src/main.py lines 57-180).  Paths, in source
order: the 503 guard at lines 60-64; `new_context` failing makes the
outer except at line 163 return None with nothing to close;
`new_page` failing likewise but with the context to close; a hard
navigation error returns None at line 145, skipping the capture wait;
a navigation timeout only prints and proceeds; the capture wait at
lines 148-159 ends on the event or on its 10 second timeout and in
both cases line 161 returns the current holder data; an unexpected
exception is caught at line 163 and returns None.  The finally block
always runs on the paths that entered the try. -/
def main_scraper (target_url : String) (c : RunConfig) : RunResult :=
  if !c.browserReady then
    { outcome := .notReady, waited := false,
      pageCloseAttempted := false, contextCloseAttempted := false }
  else if !c.newContextOk then
    { outcome := .data none, waited := false,
      pageCloseAttempted := (closeSession false false false
        c.pageCloseFails c.contextCloseFails).1,
      contextCloseAttempted := (closeSession false false false
        c.pageCloseFails c.contextCloseFails).2 }
  else if !c.newPageOk then
    { outcome := .data none, waited := false,
      pageCloseAttempted := (closeSession false false true
        c.pageCloseFails c.contextCloseFails).1,
      contextCloseAttempted := (closeSession false false true
        c.pageCloseFails c.contextCloseFails).2 }
  else if c.nav = .hardError then
    { outcome := .data none, waited := false,
      pageCloseAttempted := (closeSession true false true
        c.pageCloseFails c.contextCloseFails).1,
      contextCloseAttempted := (closeSession true false true
        c.pageCloseFails c.contextCloseFails).2 }
  else if c.unexpectedError then
    { outcome := .data none, waited := false,
      pageCloseAttempted := (closeSession true false true
        c.pageCloseFails c.contextCloseFails).1,
      contextCloseAttempted := (closeSession true false true
        c.pageCloseFails c.contextCloseFails).2 }
  else
    { outcome := .data (processResponses target_url c.responses).data,
      waited := true,
      pageCloseAttempted := (closeSession true false true
        c.pageCloseFails c.contextCloseFails).1,
      contextCloseAttempted := (closeSession true false true
        c.pageCloseFails c.contextCloseFails).2 }

/-- The capture wait of src/main.py lines 148-159 as a step observer:
given the per-operation state and whether the 10 second deadline has
elapsed, `some d` means the wait has completed with holder content `d`
(line 161), `none` means the orchestrator is still suspended.  On
deadline expiry the holder is returned as is, whether or not the event
was ever set (the except branch at lines 151-159 only prints and falls
through to the same return). -/
def wait_for_capture (st : OpState) (deadlineElapsed : Bool) :
    Option (Option Payload) :=
  if st.eventSet then some st.data
  else if deadlineElapsed then some st.data
  else none

/-- Python truthiness of a JSON-like value, as `if data:` evaluates it
at src/main.py line 199. -/
def pyTruthyJson : JsonValue → Bool
  | .null => false
  | .bool b => b
  | .num n => n != 0
  | .str s => s != ""
  | .arr elems => !elems.isEmpty
  | .obj fields => !fields.isEmpty

/-- Python truthiness of the value `main_scraper` returns: `None` is
falsy, a payload is as truthy as the object it denotes. -/
def pyTruthy : Option Payload → Bool
  | none => false
  | some p => pyTruthyJson (payloadToJson p)

/-- An HTTP response of the endpoint: status code and JSON body
(`none` for the HTTPException detail body). -/
structure HttpReply where
  status : Nat
  body : Option JsonValue
deriving Repr

/-- The endpoint `trigger_scrape_endpoint` (src/main.py lines 183-216)
applied to the value `main_scraper` returned: `if data:` returns the
data serialized as JSON with status 200, else the HTTPException with
status 404 is raised. -/
def trigger_scrape_endpoint (d : Option Payload) : HttpReply :=
  if pyTruthy d then { status := 200, body := d.map payloadToJson }
  else { status := 404, body := none }

/-- An event of the two-operation interleaving semantics: a network
response delivered to the page of operation `op` (false = first
operation, true = second). -/
structure SysEvent where
  op : Bool
  response : Response

/-- The joint state of two concurrent operations.  Each operation owns
its own holder and event (src/main.py lines 66-69: the locals of one
`main_scraper` call); nothing else is mutable. -/
structure SysState where
  st0 : OpState
  st1 : OpState

/-- One step of the two-operation system: the response event is
handled by the listener closure of the page it arrived on, which only
touches the locals of its own `main_scraper` call. -/
def sysStep (t0 t1 : String) (s : SysState) (e : SysEvent) : SysState :=
  if e.op then { s with st1 := handle_response_inner t1 s.st1 e.response }
  else { s with st0 := handle_response_inner t0 s.st0 e.response }

/-- Run the two-operation system over an arbitrary interleaving of
response events, both operations starting in the initial state. -/
def sysRun (t0 t1 : String) (es : List SysEvent) : SysState :=
  es.foldl (sysStep t0 t1) { st0 := OpState.init, st1 := OpState.init }

/-- The subsequence of responses an interleaving delivers to operation
`b`. -/
def projOp (b : Bool) : List SysEvent → List Response
  | [] => []
  | e :: es => if e.op == b then e.response :: projOp b es else projOp b es

/-! ### Concrete fixtures, taken from the concrete scenarios of the spec -/

/-- The matching POST of the first concrete scenario: `POST
http://t/api/x` answering the JSON body with field v = 1. -/
def respJsonV1 : Response :=
  { url := "http://t/api/x", method := "POST", status := 200,
    jsonBody := some (.obj [("v", .num 1)]), jsonErrMsg := "",
    textBody := none, textErrMsg := "", headersOk := true,
    headerErrMsg := "" }

/-- A first matching POST that fails with a client error and a
non-JSON body (the 405-before-csrf-token pattern named in the source
comment at src/main.py line 112). -/
def resp405 : Response :=
  { url := "http://t/api/x", method := "POST", status := 405,
    jsonBody := none, jsonErrMsg := "Expecting value",
    textBody := some "csrf token is null", textErrMsg := "",
    headersOk := true, headerErrMsg := "" }

/-- The matching POST of the second concrete scenario: HTML body with
status 500, JSON parse fails, text read succeeds, headers readable. -/
def respHtml500 : Response :=
  { url := "http://t/api/x", method := "POST", status := 500,
    jsonBody := none, jsonErrMsg := "Expecting value",
    textBody := some "<html>err</html>", textErrMsg := "",
    headersOk := true, headerErrMsg := "" }

/-- Like `respHtml500` but the best-effort diagnostic gathering
(`request.all_headers()` at src/main.py line 101) raises. -/
def respHdrFail : Response :=
  { url := "http://t/api/x", method := "POST", status := 500,
    jsonBody := none, jsonErrMsg := "Expecting value",
    textBody := some "<html>err</html>", textErrMsg := "",
    headersOk := false, headerErrMsg := "failed to fetch headers" }

/-- A non-matching response (a GET). -/
def respGet : Response :=
  { url := "http://t/api/x", method := "GET", status := 200,
    jsonBody := some .null, jsonErrMsg := "",
    textBody := none, textErrMsg := "", headersOk := true,
    headerErrMsg := "" }

/-- A run environment where everything succeeds and the page delivers
`rs` before the result slot is read. -/
def cfgOk (rs : List Response) : RunConfig :=
  { browserReady := true, newContextOk := true, newPageOk := true,
    nav := .ok, responses := rs, unexpectedError := false,
    pageCloseFails := false, contextCloseFails := false }

/-- Like `cfgOk` but navigation ends in a networkidle timeout. -/
def cfgNavTimeout (rs : List Response) : RunConfig :=
  { cfgOk rs with nav := .timeout }

/-- Like `cfgOk` but navigation fails hard. -/
def cfgNavHardError (rs : List Response) : RunConfig :=
  { cfgOk rs with nav := .hardError }

/-! ### Helper lemmas about the listener -/

/-- A response that does not satisfy the match predicate leaves the
per-operation state untouched. -/
theorem handle_not_matching (t : String) (st : OpState) (r : Response)
    (h : isTargetPost t r = false) :
    handle_response_inner t st r = st := by
  simp [handle_response_inner, h]

/-- A matching response always overwrites the holder with its
extracted payload, and the event ends set exactly when it already was
or the body parsed as JSON. -/
theorem handle_matching (t : String) (st : OpState) (r : Response)
    (h : isTargetPost t r = true) :
    handle_response_inner t st r =
      { data := some (extractPayload r),
        eventSet := st.eventSet || r.jsonBody.isSome } := by
  simp only [handle_response_inner, h, if_true, extractPayload]
  cases hj : r.jsonBody with
  | some v => simp
  | none =>
    cases ht : r.textBody with
    | some s => by_cases hh : r.headersOk <;> simp [hh]
    | none => simp

/-- Folding the listener over non-matching responses is the identity. -/
theorem foldl_not_matching (t : String) (rs : List Response)
    (st : OpState) (h : ∀ r ∈ rs, isTargetPost t r = false) :
    rs.foldl (handle_response_inner t) st = st := by
  induction rs generalizing st with
  | nil => rfl
  | cons a as ih =>
    simp only [List.foldl_cons]
    rw [handle_not_matching t st a (h a (by simp))]
    exact ih st (fun r hr => h r (by simp [hr]))

/-- One listener step preserves the invariant that a set event implies
a populated holder. -/
theorem handle_event_data (t : String) (st : OpState) (r : Response)
    (h : st.eventSet = true → st.data.isSome = true) :
    (handle_response_inner t st r).eventSet = true →
      (handle_response_inner t st r).data.isSome = true := by
  by_cases hm : isTargetPost t r
  · rw [handle_matching t st r hm]
    intro _
    simp
  · rw [handle_not_matching t st r (by simpa using hm)]
    exact h

/-- Folding the listener preserves the invariant that a set event
implies a populated holder. -/
theorem foldl_event_data (t : String) (rs : List Response)
    (st : OpState) (h : st.eventSet = true → st.data.isSome = true) :
    (rs.foldl (handle_response_inner t) st).eventSet = true →
      (rs.foldl (handle_response_inner t) st).data.isSome = true := by
  induction rs generalizing st with
  | nil => exact h
  | cons a as ih =>
    simp only [List.foldl_cons]
    exact ih _ (handle_event_data t st a h)

/-- Each operation of the two-operation system evolves as the fold of
its own listener over its own projected responses. -/
theorem sysRun_foldl (t0 t1 : String) (es : List SysEvent)
    (s : SysState) :
    (es.foldl (sysStep t0 t1) s).st0
        = (projOp false es).foldl (handle_response_inner t0) s.st0 ∧
    (es.foldl (sysStep t0 t1) s).st1
        = (projOp true es).foldl (handle_response_inner t1) s.st1 := by
  induction es generalizing s with
  | nil => exact ⟨rfl, rfl⟩
  | cons e es ih =>
    cases e with
    | mk op r =>
      cases op
      · simpa [sysStep, projOp] using ih { s with st0 := handle_response_inner t0 s.st0 r }
      · simpa [sysStep, projOp] using ih { s with st1 := handle_response_inner t1 s.st1 r }

/-! ### Claim theorems -/

/-- C1, counterexample: the listener has no captured-state guard, so a
second matching response is not discarded: after the 405-then-success
sequence the stored payload is the payload of the second matching
response and differs from what processing only the first left in the
slot, refuting that the payload, once set, is never overwritten. -/
theorem C1_counterexample :
    isTargetPost "/api/x" resp405 = true ∧
    isTargetPost "/api/x" respJsonV1 = true ∧
    (processResponses "/api/x" [resp405, respJsonV1]).data
      = some (.json (.obj [("v", .num 1)])) ∧
    (processResponses "/api/x" [resp405, respJsonV1]).data
      ≠ (processResponses "/api/x" [resp405]).data := by
  have h1 : (processResponses "/api/x" [resp405, respJsonV1]).data
      = some (.json (.obj [("v", .num 1)])) := rfl
  have h2 : (processResponses "/api/x" [resp405]).data
      = some (.errWithRaw "Expecting value" "csrf token is null") := rfl
  refine ⟨by decide, by decide, h1, ?_⟩
  rw [h1, h2]
  simp

/-- C1 as amended: every matching response overwrites the result slot
with its own extracted payload, so the operation reflects the last
matching response processed before the slot is read, not the first. -/
theorem C1_last_match_overwrites (t : String) (rs : List Response)
    (r : Response) (h : isTargetPost t r = true) :
    (processResponses t (rs ++ [r])).data = some (extractPayload r) := by
  simp only [processResponses, List.foldl_append, List.foldl_cons,
    List.foldl_nil]
  rw [handle_matching t _ r h]

/-- Witness for C1: the amended theorem at the 405-then-success
sequence. -/
theorem C1_witness :
    isTargetPost "/api/x" respJsonV1 = true ∧
    (processResponses "/api/x" ([resp405] ++ [respJsonV1])).data
      = some (extractPayload respJsonV1) :=
  ⟨by decide,
   C1_last_match_overwrites "/api/x" [resp405] respJsonV1 (by decide)⟩

/-- C2, counterexample: a matching response whose body fails JSON
parsing is processed and stores a fallback payload, yet the one-shot
event stays unset (src/main.py line 84 is the only `set()` call),
refuting that the signal is set for every matching response. -/
theorem C2_counterexample :
    isTargetPost "/api/x" resp405 = true ∧
    (processResponses "/api/x" [resp405]).eventSet = false ∧
    (processResponses "/api/x" [resp405]).data
      = some (.errWithRaw "Expecting value" "csrf token is null") :=
  ⟨by decide, rfl, rfl⟩

/-- C2 as amended: the signal is set exactly when the matching
response body parses as JSON (or it was already set), the parse
success branch writes the payload and sets the event in the same
uninterrupted step, and whenever the event is set the result slot
holds a populated payload, so an execution waking on the signal never
observes an empty slot. -/
theorem C2_signal_only_on_json (t : String) :
    (∀ st r, isTargetPost t r = true →
      (handle_response_inner t st r).eventSet
          = (st.eventSet || r.jsonBody.isSome) ∧
      ∀ v, r.jsonBody = some v →
        handle_response_inner t st r
          = { data := some (.json v), eventSet := true }) ∧
    (∀ rs, (processResponses t rs).eventSet = true →
      (processResponses t rs).data.isSome = true) := by
  constructor
  · intro st r h
    constructor
    · rw [handle_matching t st r h]
    · intro v hv
      rw [handle_matching t st r h]
      simp [extractPayload, hv]
  · intro rs
    exact foldl_event_data t rs OpState.init (by simp [OpState.init])

/-- Witness for C2: the amended theorem at a matching JSON response
and at the 405-then-success sequence. -/
theorem C2_witness :
    (handle_response_inner "/api/x" OpState.init respJsonV1).eventSet
        = (OpState.init.eventSet || respJsonV1.jsonBody.isSome) ∧
    (processResponses "/api/x" [resp405, respJsonV1]).data.isSome
        = true :=
  ⟨((C2_signal_only_on_json "/api/x").1 OpState.init respJsonV1
      (by decide)).1,
   (C2_signal_only_on_json "/api/x").2 [resp405, respJsonV1] rfl⟩

/-- C3: isolation of concurrent operations.  Over any interleaving of
response events of two operations sharing the one browser handle, each
operation's final state (its result slot, its interception state, its
one-shot event) equals the pure fold of its own listener over its own
page's responses only, so neither outcome can contain or be affected
by the other operation's captured payload. -/
theorem C3_isolation (t0 t1 : String) (es : List SysEvent) :
    (sysRun t0 t1 es).st0 = processResponses t0 (projOp false es) ∧
    (sysRun t0 t1 es).st1 = processResponses t1 (projOp true es) :=
  sysRun_foldl t0 t1 es { st0 := OpState.init, st1 := OpState.init }

/-- C4, counterexample: the concrete scenario of the spec (matching
POST with HTML body and status 500) stores the dict with exactly the
keys error and raw_text (src/main.py lines 92-95); no diagnostic and
no status field is stored, refuting that the payload carries a
diagnostic with request URL, method, headers and response status. -/
theorem C4_counterexample :
    isTargetPost "/api/x" respHtml500 = true ∧
    respHtml500.status = 500 ∧
    (processResponses "/api/x" [respHtml500]).data
      = some (.errWithRaw "Expecting value" "<html>err</html>") ∧
    objKeys (payloadToJson
        (.errWithRaw "Expecting value" "<html>err</html>"))
      = ["error", "raw_text"] ∧
    "diagnostic" ∉ objKeys (payloadToJson
        (.errWithRaw "Expecting value" "<html>err</html>")) ∧
    "status" ∉ objKeys (payloadToJson
        (.errWithRaw "Expecting value" "<html>err</html>")) :=
  ⟨by decide, rfl, rfl, rfl, by decide, by decide⟩

/-- C4 as amended: on the parse-failure path with a successful text
read and successful header retrieval, the stored payload carries the
parse-error message and the raw response text only; its serialized
object has exactly the keys error and raw_text, the request URL,
method, headers and response status being printed to the log
(src/main.py lines 97-103), not stored. -/
theorem C4_payload_no_diagnostic (t : String) (st : OpState)
    (r : Response) (txt : String) (h : isTargetPost t r = true)
    (hj : r.jsonBody = none) (ht : r.textBody = some txt)
    (hh : r.headersOk = true) :
    (handle_response_inner t st r).data
        = some (.errWithRaw r.jsonErrMsg txt) ∧
    objKeys (payloadToJson (.errWithRaw r.jsonErrMsg txt))
        = ["error", "raw_text"] := by
  constructor
  · rw [handle_matching t st r h]
    simp [extractPayload, hj, ht, hh]
  · rfl

/-- Witness for C4: the amended theorem at the HTML-500 scenario. -/
theorem C4_witness :
    (handle_response_inner "/api/x" OpState.init respHtml500).data
        = some (.errWithRaw respHtml500.jsonErrMsg "<html>err</html>") ∧
    objKeys (payloadToJson
        (.errWithRaw respHtml500.jsonErrMsg "<html>err</html>"))
        = ["error", "raw_text"] :=
  C4_payload_no_diagnostic "/api/x" OpState.init respHtml500
    "<html>err</html>" (by decide) rfl rfl rfl

/-- C5, evaluation at the failing input: on the parse-failure path the
holder is first set to the error/raw-text dict (src/main.py lines
92-95), but the best-effort diagnostic gathering at lines 97-103 runs
inside the same try, so when `request.all_headers()` raises, the
except branch at line 104 overwrites the holder with the message-only
dict, dropping the raw response text the claim requires to survive. -/
theorem C5_header_failure_drops_raw_text :
    isTargetPost "/api/x" respHdrFail = true ∧
    respHdrFail.textBody = some "<html>err</html>" ∧
    respHdrFail.headersOk = false ∧
    (processResponses "/api/x" [respHdrFail]).data
      = some (.errOnly "failed to fetch headers") ∧
    (processResponses "/api/x" [respHdrFail]).data
      ≠ some (.errWithRaw respHdrFail.jsonErrMsg "<html>err</html>") := by
  have h1 : (processResponses "/api/x" [respHdrFail]).data
      = some (.errOnly "failed to fetch headers") := rfl
  refine ⟨by decide, rfl, rfl, h1, ?_⟩
  rw [h1]
  simp

/-- C6, counterexample: an operation that did capture a payload, the
empty JSON object, is mapped to 404 by `if data:` at src/main.py line
199, since the empty dict is falsy in Python; this refutes that every
captured payload returns with status 200. -/
theorem C6_counterexample :
    trigger_scrape_endpoint (some (.json (.obj [])))
      = { status := 404, body := none } ∧
    (trigger_scrape_endpoint (some (.json (.obj [])))).status ≠ 200 :=
  ⟨rfl, by decide⟩

/-- C6 as amended: the endpoint returns the captured payload
serialized as JSON with status 200 exactly when the payload is truthy
in Python; an empty outcome maps to 404, but so does any falsy
captured payload (empty object, empty array, empty string, zero,
false, null); both fallback error dicts are non-empty objects and so
always return with 200. -/
theorem C6_truthy_payloads_200 :
    (∀ d, (trigger_scrape_endpoint d).status
        = if pyTruthy d then 200 else 404) ∧
    (∀ d, pyTruthy d = true →
      trigger_scrape_endpoint d
        = { status := 200, body := d.map payloadToJson }) ∧
    (trigger_scrape_endpoint none).status = 404 ∧
    (∀ m rtxt,
      trigger_scrape_endpoint (some (.errWithRaw m rtxt))
        = { status := 200,
            body := some (payloadToJson (.errWithRaw m rtxt)) }) ∧
    (∀ m, trigger_scrape_endpoint (some (.errOnly m))
        = { status := 200,
            body := some (payloadToJson (.errOnly m)) }) := by
  refine ⟨?_, ?_, rfl, ?_, ?_⟩
  · intro d
    by_cases h : pyTruthy d <;> simp [trigger_scrape_endpoint, h]
  · intro d h
    simp [trigger_scrape_endpoint, h]
  · intro m rtxt
    simp [trigger_scrape_endpoint, pyTruthy, payloadToJson, pyTruthyJson]
  · intro m
    simp [trigger_scrape_endpoint, pyTruthy, payloadToJson, pyTruthyJson]

/-- Witness for C6: the amended theorem at a truthy captured JSON
payload. -/
theorem C6_witness :
    trigger_scrape_endpoint (some (.json (.num 1)))
      = { status := 200,
          body := some (payloadToJson (.json (.num 1))) } :=
  C6_truthy_payloads_200.2.1 (some (.json (.num 1))) (by decide)

/-- C7: for a run where the session is acquired, navigation does not
fail hard, and the page delivers exactly one response satisfying the
match predicate (request method POST, response URL containing the
target fragment as a case-sensitive literal substring) whose body
parses as JSON, the outcome of the operation is exactly that parsed
body. -/
theorem C7_single_match_json (t : String) (c : RunConfig)
    (xs ys : List Response) (r : Response) (v : JsonValue)
    (hb : c.browserReady = true) (hc : c.newContextOk = true)
    (hp : c.newPageOk = true) (hu : c.unexpectedError = false)
    (hn : c.nav ≠ NavResult.hardError)
    (hrs : c.responses = xs ++ r :: ys)
    (hxs : ∀ x ∈ xs, isTargetPost t x = false)
    (hys : ∀ y ∈ ys, isTargetPost t y = false)
    (hm : r.method = "POST") (hurl : strContains r.url t = true)
    (hj : r.jsonBody = some v) :
    (main_scraper t c).outcome = .data (some (.json v)) := by
  have hmatch : isTargetPost t r = true := by
    simp [isTargetPost, hm, hurl]
  have hdata : (processResponses t c.responses).data
      = some (.json v) := by
    rw [hrs]
    show ((xs ++ r :: ys).foldl (handle_response_inner t)
        OpState.init).data = _
    rw [List.foldl_append, foldl_not_matching t xs OpState.init hxs]
    simp only [List.foldl_cons]
    rw [handle_matching t OpState.init r hmatch,
      foldl_not_matching t ys _ hys]
    simp [extractPayload, hj]
  simp [main_scraper, hb, hc, hp, hu, hn, hdata]

/-- Witness for C7: the first concrete scenario of the spec, a single
matching POST answering the JSON body with field v = 1. -/
theorem C7_witness :
    (main_scraper "/api/x" (cfgOk [respJsonV1])).outcome
      = .data (some (.json (.obj [("v", .num 1)]))) :=
  C7_single_match_json "/api/x" (cfgOk [respJsonV1]) [] [] respJsonV1
    (.obj [("v", .num 1)]) rfl rfl rfl rfl (by decide) rfl
    (by simp) (by simp) rfl (by decide) rfl

/-- C8: on deadline expiry the capture wait returns exactly the
current content of the result slot, never discarding a payload written
before or concurrently with the deadline firing; and a run in which no
delivered response satisfies the match predicate ends with outcome
None. -/
theorem C8_deadline_keeps_slot (t : String) (c : RunConfig)
    (hb : c.browserReady = true)
    (hno : ∀ r ∈ c.responses, isTargetPost t r = false) :
    (∀ st : OpState, wait_for_capture st true = some st.data) ∧
    (main_scraper t c).outcome = .data none := by
  constructor
  · intro st
    by_cases h : st.eventSet <;> simp [wait_for_capture, h]
  · have hdata : (processResponses t c.responses).data = none := by
      show ((c.responses).foldl (handle_response_inner t)
          OpState.init).data = none
      rw [foldl_not_matching t c.responses OpState.init hno]
      rfl
    obtain ⟨br, nc, np, nav, rs, ue, pf, cf⟩ := c
    simp only at hb hdata
    subst hb
    cases nc <;> cases np <;> cases ue <;> cases nav <;>
      simp [main_scraper, closeSession, hdata]

/-- Witness for C8: a run that delivers only a non-matching GET, and a
state holding a payload at deadline expiry. -/
theorem C8_witness :
    wait_for_capture { data := some (.json .null), eventSet := false }
        true = some (some (.json .null)) ∧
    (main_scraper "/api/x" (cfgOk [respGet])).outcome = .data none :=
  ⟨(C8_deadline_keeps_slot "/api/x" (cfgOk [respGet]) rfl
      (by decide)).1 { data := some (.json .null), eventSet := false },
   (C8_deadline_keeps_slot "/api/x" (cfgOk [respGet]) rfl
      (by decide)).2⟩

/-- C9: a navigation or networkidle timeout is non-fatal — the run
still reaches the capture wait and returns whatever the listener
stored, including payloads captured during navigation — while a hard
navigation error is fatal: the outcome is None and the capture wait
is skipped. -/
theorem C9_navigation_errors (t : String) (c : RunConfig)
    (hb : c.browserReady = true) (hc : c.newContextOk = true)
    (hp : c.newPageOk = true) (hu : c.unexpectedError = false) :
    (c.nav = NavResult.timeout →
      (main_scraper t c).waited = true ∧
      (main_scraper t c).outcome
        = .data (processResponses t c.responses).data) ∧
    (c.nav = NavResult.hardError →
      (main_scraper t c).waited = false ∧
      (main_scraper t c).outcome = .data none) := by
  constructor
  · intro hn
    simp [main_scraper, hb, hc, hp, hu, hn, closeSession]
  · intro hn
    simp [main_scraper, hb, hc, hp, hu, hn, closeSession]

/-- Witness for C9: a run with a navigation timeout and a run with a
hard navigation error during which a matching response had fired. -/
theorem C9_witness :
    ((main_scraper "/api/x" (cfgNavTimeout [respJsonV1])).waited
        = true ∧
      (main_scraper "/api/x" (cfgNavTimeout [respJsonV1])).outcome
        = .data (processResponses "/api/x" [respJsonV1]).data) ∧
    ((main_scraper "/api/x" (cfgNavHardError [respJsonV1])).waited
        = false ∧
      (main_scraper "/api/x" (cfgNavHardError [respJsonV1])).outcome
        = .data none) :=
  ⟨(C9_navigation_errors "/api/x" (cfgNavTimeout [respJsonV1])
      rfl rfl rfl rfl).1 rfl,
   (C9_navigation_errors "/api/x" (cfgNavHardError [respJsonV1])
      rfl rfl rfl rfl).2 rfl⟩

/-- C10: on every exit path the finally block attempts to close the
context exactly when it was acquired and the page exactly when it was
acquired, and the run result — outcome included — is unchanged by
close failures, since each close sits in its own fault-tolerant try
(a page close failure does not prevent the context close). -/
theorem C10_cleanup_every_path (t : String) (c : RunConfig)
    (b1 b2 : Bool) :
    (main_scraper t c).contextCloseAttempted
        = (c.browserReady && c.newContextOk) ∧
    (main_scraper t c).pageCloseAttempted
        = (c.browserReady && c.newContextOk && c.newPageOk) ∧
    main_scraper t
        { c with pageCloseFails := b1, contextCloseFails := b2 }
      = main_scraper t c := by
  obtain ⟨br, nc, np, nav, rs, ue, pf, cf⟩ := c
  cases br <;> cases nc <;> cases np <;> cases ue <;> cases nav <;>
    simp [main_scraper, closeSession]

end Scrape
